import Mathlib

/-!
Verification of the portfolio contact-form backend (`src/server.py`).

The service exposes three routes: `GET /api/` (liveness), `POST /api/contact`
(validate a `ContactFormSubmit` body, insert one document into the `contacts`
collection, answer a success body), and `GET /api/contact` (list stored
contacts sorted by timestamp descending, capped at 1000, mapped through
`ContactFormResponse`).  An email notifier `send_email_notification` exists
but its dispatch from the route is commented out in this revision.

The embedding below models the MongoDB `contacts` collection as a list of
documents with an `_id` counter, datetimes as integers (a totally ordered
server clock), the pydantic request model as a parser over an optional-field
raw body (pydantic's default config ignores unknown extra fields), and the
possibility of a failing database insert or failing email transport as
explicit environment parameters.
-/

namespace PortfolioBackend

/-- A document stored in the `contacts` collection.  `oid` models the
Mongo-assigned `_id`; `read` is `Option Bool` because an arbitrary stored
document may lack the `read` key (the listing handler uses
`c.get("read", False)`). -/
structure StoredDoc where
  oid : Nat
  name : String
  email : String
  message : String
  timestamp : Int
  read : Option Bool
deriving Repr, DecidableEq

/-- State of the database: the `contacts` collection plus the next `_id`
the storage layer will assign. -/
structure DBState where
  contacts : List StoredDoc
  nextOid : Nat
deriving Repr, DecidableEq

/-- An outbound email message, as sent by the notifier. -/
structure EmailMsg where
  toAddr : String
  subject : String
  html : String
deriving Repr, DecidableEq

/-- Whole-application state: the database plus the emails actually sent. -/
structure AppState where
  db : DBState
  emailsSent : List EmailMsg
deriving Repr, DecidableEq

/-- A raw JSON request body for `POST /api/contact`: each expected field may
be absent, and arbitrary extra key/value pairs may be present (for example a
client-supplied `timestamp`). -/
structure RawBody where
  name : Option String
  email : Option String
  message : Option String
  extra : List (String × String)
deriving Repr, DecidableEq

/-- The pydantic request model `ContactFormSubmit`: three required string
fields (`src/server.py` lines 83-86). -/
structure ContactFormSubmit where
  name : String
  email : String
  message : String
deriving Repr, DecidableEq

/-- Pydantic validation of the request body against `ContactFormSubmit`:
all three fields must be present; extra fields are ignored (pydantic's
default config); a missing field is rejected by FastAPI with a structured
422 response before the handler body runs. -/
def parseContactFormSubmit (b : RawBody) : Except Nat ContactFormSubmit :=
  match b.name, b.email, b.message with
  | some n, some e, some m => Except.ok { name := n, email := e, message := m }
  | _, _, _ => Except.error 422

/-- Outcome of the email transport (the `requests.post` to the Resend API
plus `raise_for_status`): success, an HTTP error status, or any other
exception (network failure, missing environment variable, ...). -/
inductive TransportOutcome where
  | ok
  | httpError (code : Nat)
  | exn (msg : String)
deriving Repr, DecidableEq

/-- Body of the `try` block of `send_email_notification`
(`src/server.py` lines 44-65): performs the transport call and raises on
any failure. -/
def emailTryBody (outcome : TransportOutcome) : Except String Unit :=
  match outcome with
  | TransportOutcome.ok => Except.ok ()
  | TransportOutcome.httpError c => Except.error ("HTTP status " ++ toString c)
  | TransportOutcome.exn msg => Except.error msg

/-- The notifier `send_email_notification` (`src/server.py` lines 43-68):
runs the transport inside `try`; `except Exception as e` catches every
exception and logs it.  The result is the list of log lines written; an
`Except.error` result would model an exception escaping the function. -/
def send_email_notification (outcome : TransportOutcome) :
    Except String (List String) :=
  match emailTryBody outcome with
  | Except.ok _ => Except.ok []
  | Except.error e => Except.ok ["Email API error: " ++ e]

/-- Response of `POST /api/contact` as seen by the client: either the
handler's JSON body (with optional `message` and `id` fields), a framework
validation error, or the framework's default error response to an unhandled
exception. -/
inductive ContactResponse where
  | okBody (success : Bool) (message : Option String) (id : Option String)
  | validationError (status : Nat)
  | serverError (status : Nat)
deriving Repr, DecidableEq

/-- The `contact_doc` dict built by `submit_contact_form`
(`src/server.py` lines 111-117): the stored fields come from the validated
body, the timestamp from the server clock, `read` is set to `False`; the
storage layer assigns the `_id`. -/
def mkContactDoc (cd : ContactFormSubmit) (now : Int) (oid : Nat) : StoredDoc :=
  { oid := oid, name := cd.name, email := cd.email, message := cd.message,
    timestamp := now, read := some false }

/-- The handler body of `submit_contact_form` after validation
(`src/server.py` lines 105-132).  `now` is the server clock
(`datetime.utcnow()`), `dbOk` tells whether `insert_one` succeeds; a failing
insert raises, which is unhandled at the route level and becomes the
framework's 500 response with no document stored.  On success the document
is appended and the literal success body is returned (no `id` field). -/
def submit_contact_form (contact_data : ContactFormSubmit) (now : Int)
    (dbOk : Bool) (st : DBState) : DBState × ContactResponse :=
  let contact_doc := mkContactDoc contact_data now st.nextOid
  if dbOk then
    ({ contacts := st.contacts ++ [contact_doc], nextOid := st.nextOid + 1 },
      ContactResponse.okBody true (some "Message saved successfully") none)
  else
    (st, ContactResponse.serverError 500)

/-- The complete `POST /api/contact` pipeline: framework validation, then
the handler.  `emailEnv` is the state of the email transport; it is unused
because the `background_tasks.add_task(send_email_notification, ...)` call
is commented out in this revision (`src/server.py` lines 121-127), so
`emailsSent` never changes. -/
def handleContactPost (body : RawBody) (now : Int) (dbOk : Bool)
    (_emailEnv : TransportOutcome) (st : AppState) : AppState × ContactResponse :=
  match parseContactFormSubmit body with
  | Except.error code => (st, ContactResponse.validationError code)
  | Except.ok cd =>
    let r := submit_contact_form cd now dbOk st.db
    ({ st with db := r.1 }, r.2)

/-- Comparison used by `.sort("timestamp", -1)`: document `a` may come
before `b` exactly when its timestamp is not smaller. -/
def tsDescRel (a b : StoredDoc) : Prop := b.timestamp ≤ a.timestamp

instance : DecidableRel tsDescRel := fun a b =>
  inferInstanceAs (Decidable (b.timestamp ≤ a.timestamp))

instance : IsTotal StoredDoc tsDescRel :=
  ⟨fun a b => le_total b.timestamp a.timestamp⟩

instance : IsTrans StoredDoc tsDescRel :=
  ⟨fun _ _ _ h1 h2 => le_trans h2 h1⟩

/-- The cursor `find().sort("timestamp", -1)`: all documents arranged so
that timestamps are nonincreasing. -/
def sortByTimestampDesc (l : List StoredDoc) : List StoredDoc :=
  List.insertionSort tsDescRel l

/-- The pydantic response model `ContactFormResponse`
(`src/server.py` lines 88-94). -/
structure ContactFormResponse where
  id : String
  name : String
  email : String
  message : String
  timestamp : Int
  read : Bool
deriving Repr, DecidableEq

/-- Mapping of one stored document to the response shape
(`src/server.py` lines 142-149): `id=str(c["_id"])` and
`read=c.get("read", False)`. -/
def toResponse (c : StoredDoc) : ContactFormResponse :=
  { id := toString c.oid, name := c.name, email := c.email,
    message := c.message, timestamp := c.timestamp,
    read := c.read.getD false }

/-- The handler `get_contact_submissions` (`src/server.py` lines 135-151):
sort by timestamp descending, `to_list(1000)`, map each document to
`ContactFormResponse`. -/
def get_contact_submissions (st : DBState) : List ContactFormResponse :=
  ((sortByTimestampDesc st.contacts).take 1000).map toResponse

/-- Whether a response body reports success to the client. -/
def isSuccessResp : ContactResponse → Bool
  | ContactResponse.okBody true _ _ => true
  | _ => false

/-- Result of any exposed route. -/
inductive ApiResult where
  | contact (r : ContactResponse)
  | listing (rs : List ContactFormResponse)
  | hello (msg : String)
deriving Repr, DecidableEq

/-- The exposed operations of the service, with their environment inputs. -/
inductive ApiOp where
  | postContact (body : RawBody) (now : Int) (dbOk : Bool)
      (emailEnv : TransportOutcome)
  | getContacts
  | getRoot
deriving Repr

/-- Dispatch of one request to its route handler. -/
def runOp : ApiOp → AppState → AppState × ApiResult
  | ApiOp.postContact body now dbOk env, st =>
    let r := handleContactPost body now dbOk env st
    (r.1, ApiResult.contact r.2)
  | ApiOp.getContacts, st => (st, ApiResult.listing (get_contact_submissions st.db))
  | ApiOp.getRoot, st => (st, ApiResult.hello "Hello World")

/-! Helper lemmas shared by the claim theorems. -/

/-- Validation succeeds exactly on the three present fields. -/
theorem parse_of_fields (body : RawBody) (n e m : String)
    (hn : body.name = some n) (he : body.email = some e)
    (hm : body.message = some m) :
    parseContactFormSubmit body =
      Except.ok { name := n, email := e, message := m } := by
  unfold parseContactFormSubmit
  rw [hn, he, hm]

/-- Exact result of a valid `POST /api/contact` with a working database. -/
theorem post_valid_eq (body : RawBody) (n e m : String) (now : Int)
    (env : TransportOutcome) (st : AppState)
    (hn : body.name = some n) (he : body.email = some e)
    (hm : body.message = some m) :
    handleContactPost body now true env st =
      ({ db := { contacts := st.db.contacts ++
                   [mkContactDoc { name := n, email := e, message := m } now st.db.nextOid],
                 nextOid := st.db.nextOid + 1 },
         emailsSent := st.emailsSent },
       ContactResponse.okBody true (some "Message saved successfully") none) := by
  unfold handleContactPost
  rw [parse_of_fields body n e m hn he hm]
  simp [submit_contact_form]

/-- Any `POST /api/contact` appends at most one document and touches nothing
else in the collection. -/
theorem post_contacts_append (body : RawBody) (now : Int) (dbOk : Bool)
    (env : TransportOutcome) (st : AppState) :
    ∃ tail : List StoredDoc, tail.length ≤ 1 ∧
      (handleContactPost body now dbOk env st).1.db.contacts =
        st.db.contacts ++ tail := by
  unfold handleContactPost
  cases hp : parseContactFormSubmit body with
  | error code => exact ⟨[], by simp⟩
  | ok cd =>
    cases dbOk with
    | false => exact ⟨[], by simp [submit_contact_form]⟩
    | true =>
      exact ⟨[mkContactDoc cd now st.db.nextOid], by simp [submit_contact_form]⟩

/-- C1: a valid contact submission (name, email, message all present) inserts
exactly one document into the contacts collection, carrying the submitted
fields with `read = false` and the server-assigned timestamp, and the handler
answers the success body `{success := true, message := ...}` (an instance of
the shape `{success, message?, id?}`). -/
theorem C1_valid_submission_inserts_one (body : RawBody) (n e m : String)
    (now : Int) (env : TransportOutcome) (st : AppState)
    (hn : body.name = some n) (he : body.email = some e)
    (hm : body.message = some m) :
    ∃ d : StoredDoc,
      (handleContactPost body now true env st).1.db.contacts =
        st.db.contacts ++ [d] ∧
      d.name = n ∧ d.email = e ∧ d.message = m ∧
      d.read = some false ∧ d.timestamp = now ∧
      (handleContactPost body now true env st).2 =
        ContactResponse.okBody true (some "Message saved successfully") none := by
  refine ⟨mkContactDoc { name := n, email := e, message := m } now st.db.nextOid, ?_⟩
  rw [post_valid_eq body n e m now env st hn he hm]
  simp [mkContactDoc]

/-- C1 witness: the concrete submission `{name: "A", email: "a@x.com",
message: "hi"}` against the empty store. -/
theorem C1_witness :
    ∃ d : StoredDoc,
      (handleContactPost ⟨some "A", some "a@x.com", some "hi", []⟩ 42 true
          TransportOutcome.ok ⟨⟨[], 0⟩, []⟩).1.db.contacts =
        (⟨⟨[], 0⟩, []⟩ : AppState).db.contacts ++ [d] ∧
      d.name = "A" ∧ d.email = "a@x.com" ∧ d.message = "hi" ∧
      d.read = some false ∧ d.timestamp = 42 ∧
      (handleContactPost ⟨some "A", some "a@x.com", some "hi", []⟩ 42 true
          TransportOutcome.ok ⟨⟨[], 0⟩, []⟩).2 =
        ContactResponse.okBody true (some "Message saved successfully") none :=
  C1_valid_submission_inserts_one ⟨some "A", some "a@x.com", some "hi", []⟩
    "A" "a@x.com" "hi" 42 TransportOutcome.ok ⟨⟨[], 0⟩, []⟩ rfl rfl rfl

/-- C5: a request body missing any required field is rejected by validation
with a structured 422 before any database write: the returned state is the
input state, unchanged. -/
theorem C5_missing_field_rejected_before_write (body : RawBody) (now : Int)
    (dbOk : Bool) (env : TransportOutcome) (st : AppState)
    (h : body.name = none ∨ body.email = none ∨ body.message = none) :
    handleContactPost body now dbOk env st =
      (st, ContactResponse.validationError 422) := by
  obtain ⟨bn, be, bm, bx⟩ := body
  cases bn <;> cases be <;> cases bm <;>
    simp_all [handleContactPost, parseContactFormSubmit]

/-- C5 witness: a body with no `message` field is rejected and the state is
unchanged. -/
theorem C5_witness :
    handleContactPost ⟨some "A", some "a@x.com", none, []⟩ 0 true
        TransportOutcome.ok ⟨⟨[], 0⟩, []⟩ =
      (⟨⟨[], 0⟩, []⟩, ContactResponse.validationError 422) :=
  C5_missing_field_rejected_before_write ⟨some "A", some "a@x.com", none, []⟩ 0
    true TransportOutcome.ok ⟨⟨[], 0⟩, []⟩ (Or.inr (Or.inr rfl))

/-- C6: for a valid body, the response reports success exactly when the
database write succeeded; when the insert fails the exception is unhandled
at the route level (framework 500) and no success body is produced, with the
store unchanged. -/
theorem C6_success_iff_db_write (body : RawBody) (n e m : String) (now : Int)
    (dbOk : Bool) (env : TransportOutcome) (st : AppState)
    (hn : body.name = some n) (he : body.email = some e)
    (hm : body.message = some m) :
    (isSuccessResp (handleContactPost body now dbOk env st).2 = true ↔
      dbOk = true) ∧
    (dbOk = false →
      handleContactPost body now dbOk env st =
        (st, ContactResponse.serverError 500)) := by
  cases dbOk with
  | true =>
    rw [post_valid_eq body n e m now env st hn he hm]
    simp [isSuccessResp]
  | false =>
    unfold handleContactPost
    rw [parse_of_fields body n e m hn he hm]
    simp [submit_contact_form, isSuccessResp]

/-- C6 witness: a valid body against a failing database yields the 500
response and no success body. -/
theorem C6_witness :
    (isSuccessResp (handleContactPost ⟨some "A", some "a@x.com", some "hi", []⟩
        0 false TransportOutcome.ok ⟨⟨[], 0⟩, []⟩).2 = true ↔ false = true) ∧
    (false = false →
      handleContactPost ⟨some "A", some "a@x.com", some "hi", []⟩ 0 false
          TransportOutcome.ok ⟨⟨[], 0⟩, []⟩ =
        (⟨⟨[], 0⟩, []⟩, ContactResponse.serverError 500)) :=
  C6_success_iff_db_write ⟨some "A", some "a@x.com", some "hi", []⟩
    "A" "a@x.com" "hi" 0 false TransportOutcome.ok ⟨⟨[], 0⟩, []⟩ rfl rfl rfl

/-- C4: in this revision no email is ever dispatched by a contact
submission (the background-task call is commented out): `emailsSent` is
unchanged by every request, whatever the transport environment, and the only
state change is the at-most-one appended document. -/
theorem C4_no_email_dispatch (body : RawBody) (now : Int) (dbOk : Bool)
    (env : TransportOutcome) (st : AppState) :
    (handleContactPost body now dbOk env st).1.emailsSent = st.emailsSent ∧
    ∃ tail : List StoredDoc, tail.length ≤ 1 ∧
      (handleContactPost body now dbOk env st).1.db.contacts =
        st.db.contacts ++ tail := by
  refine ⟨?_, post_contacts_append body now dbOk env st⟩
  unfold handleContactPost
  cases hp : parseContactFormSubmit body <;> rfl

/-- C9: every exposed operation is append-only on the contacts collection:
already-stored documents (including their `read` flag) are never updated or
deleted. -/
theorem C9_append_only (op : ApiOp) (st : AppState) :
    ∃ tail : List StoredDoc,
      (runOp op st).1.db.contacts = st.db.contacts ++ tail := by
  cases op with
  | postContact body now dbOk env =>
    obtain ⟨tail, _, htail⟩ := post_contacts_append body now dbOk env st
    exact ⟨tail, htail⟩
  | getContacts => exact ⟨[], by simp [runOp]⟩
  | getRoot => exact ⟨[], by simp [runOp]⟩

/-- C2 counterexample: with two stored documents sharing the timestamp 5,
the listing returns both records (N = 2) but the output is NOT strictly
ordered by timestamp descending, refuting the strictness part of the claim. -/
theorem C2_counterexample :
    (get_contact_submissions
        ⟨[⟨0, "A", "a@x.com", "hi", 5, some false⟩,
          ⟨1, "B", "b@x.com", "yo", 5, some false⟩], 2⟩).length = 2 ∧
    ¬ List.Pairwise (fun a b : ContactFormResponse => b.timestamp < a.timestamp)
      (get_contact_submissions
        ⟨[⟨0, "A", "a@x.com", "hi", 5, some false⟩,
          ⟨1, "B", "b@x.com", "yo", 5, some false⟩], 2⟩) := by
  decide

/-- C2 (amended): listing a store of N documents returns exactly
min N 1000 records, ordered by timestamp in nonincreasing order (strictly
descending whenever the stored timestamps are pairwise distinct), and the
empty store yields the empty list, not an error. -/
theorem C2_listing_length_and_order (st : DBState) :
    (get_contact_submissions st).length = min st.contacts.length 1000 ∧
    List.Pairwise (fun a b : ContactFormResponse => b.timestamp ≤ a.timestamp)
      (get_contact_submissions st) ∧
    (List.Pairwise (fun a b : StoredDoc => a.timestamp ≠ b.timestamp)
        st.contacts →
      List.Pairwise (fun a b : ContactFormResponse => b.timestamp < a.timestamp)
        (get_contact_submissions st)) ∧
    (st.contacts = [] → get_contact_submissions st = []) := by
  have hsorted : List.Pairwise tsDescRel (sortByTimestampDesc st.contacts) :=
    List.sorted_insertionSort tsDescRel st.contacts
  have htake : List.Pairwise tsDescRel
      ((sortByTimestampDesc st.contacts).take 1000) :=
    List.Pairwise.sublist (List.take_sublist 1000 _) hsorted
  refine ⟨?_, ?_, ?_, ?_⟩
  · rw [get_contact_submissions, List.length_map, List.length_take,
      sortByTimestampDesc, List.length_insertionSort]
    omega
  · rw [get_contact_submissions]
    exact List.pairwise_map.mpr htake
  · intro hdist
    have hperm := List.perm_insertionSort tsDescRel st.contacts
    have hdist2 : List.Pairwise
        (fun a b : StoredDoc => a.timestamp ≠ b.timestamp)
        (sortByTimestampDesc st.contacts) :=
      (List.Perm.pairwise_iff (fun h => Ne.symm h) hperm).mpr hdist
    have hdist3 := List.Pairwise.sublist (List.take_sublist 1000 _) hdist2
    have hcomb := List.Pairwise.and htake hdist3
    rw [get_contact_submissions]
    refine List.pairwise_map.mpr (List.Pairwise.imp ?_ hcomb)
    intro a b hab
    exact lt_of_le_of_ne hab.1 (Ne.symm hab.2)
  · intro h
    rw [get_contact_submissions, sortByTimestampDesc, h]
    rfl

/-- C2 witness: a concrete store of two documents with distinct timestamps
is listed in full and strictly descending. -/
theorem C2_witness :
    (get_contact_submissions
        ⟨[⟨0, "A", "a@x.com", "hi", 3, some false⟩,
          ⟨1, "B", "b@x.com", "yo", 7, some false⟩], 2⟩).length =
      min (⟨[⟨0, "A", "a@x.com", "hi", 3, some false⟩,
             ⟨1, "B", "b@x.com", "yo", 7, some false⟩], 2⟩ :
            DBState).contacts.length 1000 ∧
    List.Pairwise (fun a b : ContactFormResponse => b.timestamp < a.timestamp)
      (get_contact_submissions
        ⟨[⟨0, "A", "a@x.com", "hi", 3, some false⟩,
          ⟨1, "B", "b@x.com", "yo", 7, some false⟩], 2⟩) :=
  ⟨(C2_listing_length_and_order
      ⟨[⟨0, "A", "a@x.com", "hi", 3, some false⟩,
        ⟨1, "B", "b@x.com", "yo", 7, some false⟩], 2⟩).1,
   (C2_listing_length_and_order
      ⟨[⟨0, "A", "a@x.com", "hi", 3, some false⟩,
        ⟨1, "B", "b@x.com", "yo", 7, some false⟩], 2⟩).2.2.1 (by decide)⟩

/-- C3: a failing email transport is invisible to the caller: every
exception raised inside `send_email_notification` is caught and turned into
a log line (the function always returns normally, for every outcome), and
the HTTP response and stored state of `POST /api/contact` do not depend on
the email environment at all. -/
theorem C3_email_failure_swallowed (outcome : TransportOutcome) (err : String)
    (hfail : emailTryBody outcome = Except.error err) :
    send_email_notification outcome = Except.ok ["Email API error: " ++ err] ∧
    (∀ o : TransportOutcome, ∃ log, send_email_notification o = Except.ok log) ∧
    (∀ (body : RawBody) (now : Int) (dbOk : Bool) (env2 : TransportOutcome)
        (st : AppState),
      handleContactPost body now dbOk outcome st =
        handleContactPost body now dbOk env2 st) := by
  refine ⟨?_, ?_, ?_⟩
  · simp [send_email_notification, hfail]
  · intro o
    cases ho : emailTryBody o with
    | ok u => exact ⟨[], by simp [send_email_notification, ho]⟩
    | error e2 =>
      exact ⟨["Email API error: " ++ e2], by simp [send_email_notification, ho]⟩
  · intro body now dbOk env2 st
    rfl

/-- C3 witness: a transport that raises a network exception is logged and
swallowed. -/
theorem C3_witness :
    send_email_notification (TransportOutcome.exn "boom") =
      Except.ok ["Email API error: " ++ "boom"] ∧
    (∀ o : TransportOutcome, ∃ log, send_email_notification o = Except.ok log) ∧
    (∀ (body : RawBody) (now : Int) (dbOk : Bool) (env2 : TransportOutcome)
        (st : AppState),
      handleContactPost body now dbOk (TransportOutcome.exn "boom") st =
        handleContactPost body now dbOk env2 st) :=
  C3_email_failure_swallowed (TransportOutcome.exn "boom") "boom" rfl

/-- C7: the stored timestamp is server-assigned: any extra field of the
request body (for example a client-supplied `timestamp`) is ignored by
validation and changes nothing in the outcome, and the inserted document's
timestamp is exactly the server clock value. -/
theorem C7_timestamp_server_assigned (body : RawBody) (n e m : String)
    (now : Int) (env : TransportOutcome) (st : AppState)
    (hn : body.name = some n) (he : body.email = some e)
    (hm : body.message = some m) :
    (∀ (extra2 : List (String × String)) (dbOk : Bool),
      handleContactPost { body with extra := extra2 } now dbOk env st =
        handleContactPost body now dbOk env st) ∧
    ∃ d : StoredDoc,
      (handleContactPost body now true env st).1.db.contacts =
        st.db.contacts ++ [d] ∧ d.timestamp = now := by
  constructor
  · intro extra2 dbOk
    have hparse : parseContactFormSubmit { body with extra := extra2 } =
        parseContactFormSubmit body := by
      obtain ⟨bn, be, bm, bx⟩ := body
      rfl
    unfold handleContactPost
    rw [hparse]
  · refine ⟨mkContactDoc { name := n, email := e, message := m } now
      st.db.nextOid, ?_, rfl⟩
    rw [post_valid_eq body n e m now env st hn he hm]

/-- C7 witness: a body carrying a client-supplied `timestamp` extra field
stores the server clock value 99, not the client value. -/
theorem C7_witness :
    (∀ (extra2 : List (String × String)) (dbOk : Bool),
      handleContactPost
          { name := some "A", email := some "a@x.com", message := some "hi",
            extra := extra2 } 99 dbOk TransportOutcome.ok ⟨⟨[], 0⟩, []⟩ =
        handleContactPost
          ⟨some "A", some "a@x.com", some "hi", [("timestamp", "123")]⟩ 99
          dbOk TransportOutcome.ok ⟨⟨[], 0⟩, []⟩) ∧
    ∃ d : StoredDoc,
      (handleContactPost
          ⟨some "A", some "a@x.com", some "hi", [("timestamp", "123")]⟩ 99
          true TransportOutcome.ok ⟨⟨[], 0⟩, []⟩).1.db.contacts =
        (⟨⟨[], 0⟩, []⟩ : AppState).db.contacts ++ [d] ∧ d.timestamp = 99 :=
  C7_timestamp_server_assigned
    ⟨some "A", some "a@x.com", some "hi", [("timestamp", "123")]⟩
    "A" "a@x.com" "hi" 99 TransportOutcome.ok ⟨⟨[], 0⟩, []⟩ rfl rfl rfl

/-- C8: two submissions with identical name, email and message are both
stored as separate records: the second is never deduplicated, and the two
documents get distinct storage identities. -/
theorem C8_duplicate_submissions_both_stored (body : RawBody) (n e m : String)
    (now1 now2 : Int) (env1 env2 : TransportOutcome) (st : AppState)
    (hn : body.name = some n) (he : body.email = some e)
    (hm : body.message = some m) :
    ∃ d1 d2 : StoredDoc,
      (handleContactPost body now2 true env2
          (handleContactPost body now1 true env1 st).1).1.db.contacts =
        st.db.contacts ++ [d1, d2] ∧
      d1.oid ≠ d2.oid ∧
      d1.name = n ∧ d1.email = e ∧ d1.message = m ∧
      d2.name = n ∧ d2.email = e ∧ d2.message = m := by
  refine ⟨mkContactDoc { name := n, email := e, message := m } now1
      st.db.nextOid,
    mkContactDoc { name := n, email := e, message := m } now2
      (st.db.nextOid + 1), ?_⟩
  rw [post_valid_eq body n e m now1 env1 st hn he hm]
  rw [post_valid_eq body n e m now2 env2 _ hn he hm]
  refine ⟨by simp [mkContactDoc], ?_, rfl, rfl, rfl, rfl, rfl, rfl⟩
  show st.db.nextOid ≠ st.db.nextOid + 1
  omega

/-- C8 witness: the same concrete submission sent twice yields two stored
documents with distinct identities. -/
theorem C8_witness :
    ∃ d1 d2 : StoredDoc,
      (handleContactPost ⟨some "A", some "a@x.com", some "hi", []⟩ 2 true
          TransportOutcome.ok
          (handleContactPost ⟨some "A", some "a@x.com", some "hi", []⟩ 1 true
            TransportOutcome.ok ⟨⟨[], 0⟩, []⟩).1).1.db.contacts =
        (⟨⟨[], 0⟩, []⟩ : AppState).db.contacts ++ [d1, d2] ∧
      d1.oid ≠ d2.oid ∧
      d1.name = "A" ∧ d1.email = "a@x.com" ∧ d1.message = "hi" ∧
      d2.name = "A" ∧ d2.email = "a@x.com" ∧ d2.message = "hi" :=
  C8_duplicate_submissions_both_stored
    ⟨some "A", some "a@x.com", some "hi", []⟩ "A" "a@x.com" "hi" 1 2
    TransportOutcome.ok TransportOutcome.ok ⟨⟨[], 0⟩, []⟩ rfl rfl rfl

/-- C10: every listed record comes from a stored document, with the storage
`_id` rendered as the string `id` field and every other field copied; a
document lacking the `read` key is listed with `read = false` rather than
causing an error. -/
theorem C10_listing_maps_id_and_read (st : DBState) (r : ContactFormResponse)
    (hr : r ∈ get_contact_submissions st) :
    ∃ c ∈ st.contacts, r.id = toString c.oid ∧ r.name = c.name ∧
      r.email = c.email ∧ r.message = c.message ∧
      r.timestamp = c.timestamp ∧ r.read = c.read.getD false ∧
      (c.read = none → r.read = false) := by
  obtain ⟨c, hc, rfl⟩ := List.mem_map.mp hr
  have hmem : c ∈ st.contacts :=
    (List.perm_insertionSort tsDescRel st.contacts).subset
      (List.mem_of_mem_take hc)
  refine ⟨c, hmem, rfl, rfl, rfl, rfl, rfl, rfl, ?_⟩
  intro hnone
  simp [toResponse, hnone]

/-- C10 witness: a stored document without a `read` key is listed with
`read = false` and its `_id` rendered as a string. -/
theorem C10_witness :
    ∃ c ∈ (⟨[⟨7, "A", "a@x.com", "hi", 3, none⟩], 8⟩ : DBState).contacts,
      (⟨"7", "A", "a@x.com", "hi", 3, false⟩ : ContactFormResponse).id =
        toString c.oid ∧
      (⟨"7", "A", "a@x.com", "hi", 3, false⟩ : ContactFormResponse).name =
        c.name ∧
      (⟨"7", "A", "a@x.com", "hi", 3, false⟩ : ContactFormResponse).email =
        c.email ∧
      (⟨"7", "A", "a@x.com", "hi", 3, false⟩ : ContactFormResponse).message =
        c.message ∧
      (⟨"7", "A", "a@x.com", "hi", 3, false⟩ : ContactFormResponse).timestamp =
        c.timestamp ∧
      (⟨"7", "A", "a@x.com", "hi", 3, false⟩ : ContactFormResponse).read =
        c.read.getD false ∧
      (c.read = none →
        (⟨"7", "A", "a@x.com", "hi", 3, false⟩ : ContactFormResponse).read =
          false) :=
  C10_listing_maps_id_and_read ⟨[⟨7, "A", "a@x.com", "hi", 3, none⟩], 8⟩
    ⟨"7", "A", "a@x.com", "hi", 3, false⟩ (by decide)

end PortfolioBackend
